import Mathlib

/-!
# Verification of the Kudu RPC reactor (src/rpc/reactor.cc)

A shallow embedding of the reactor subsystem: the foreign-thread facade
(`Reactor`: task queue, closing flag, Shutdown) and the loop-side operations
(`ReactorThread`: AsyncHandler, RegisterConnection, AssignOutboundCall,
FindOrStartConnection, ScanIdleConnections, DestroyConnection).

External collaborators whose implementation is not part of the sources
(Status, MonoTime, Socket, Connection, the negotiation executor) are modelled
at their interface: their observable results enter as explicit fields of an
environment record, and effects on them (Connection::Shutdown,
OutboundCall::SetFailed, ReactorTask::Run/Abort) are recorded in result
values rather than performed.
-/

namespace KuduRpc

/-! ## Status (util/status.h)

Modelled from the spec: `util/status.h` is not among the sources; the spec's
error taxonomy (section 7) gives the constructors used by the reactor. A
status is a code, two message strings and a POSIX errno. `CloneAndPrepend`
prefixes the message, keeping the code. -/

inductive StatusCode
| Ok
| ServiceUnavailable
| NetworkError
| IllegalState
| RuntimeError
deriving DecidableEq, Repr

structure Status where
  code : StatusCode
  msg : String
  msg2 : String
  posix : Int
deriving DecidableEq, Repr

def Status.OK : Status := ⟨StatusCode.Ok, "", "", -1⟩

def Status.serviceUnavailable (m m2 : String) (p : Int) : Status :=
  ⟨StatusCode.ServiceUnavailable, m, m2, p⟩

def Status.networkError (m : String) : Status :=
  ⟨StatusCode.NetworkError, m, "", -1⟩

def Status.illegalState (m : String) : Status :=
  ⟨StatusCode.IllegalState, m, "", -1⟩

def Status.runtimeError (m : String) : Status :=
  ⟨StatusCode.RuntimeError, m, "", -1⟩

def Status.ok (s : Status) : Bool := s.code = StatusCode.Ok

def Status.IsIllegalState (s : Status) : Bool := s.code = StatusCode.IllegalState

def Status.CloneAndPrepend (s : Status) (p : String) : Status :=
  ⟨s.code, p ++ ": " ++ s.msg, s.msg2, s.posix⟩

def Status.posix_code (s : Status) : Int := s.posix

/-! ## Errno constants used by the reactor (Linux values) -/

def ESHUTDOWN : Int := 108
def EAGAIN : Int := 11
def EWOULDBLOCK : Int := 11
def EINPROGRESS : Int := 115

/-! ## Monotonic clock (util/monotime.h)

Modelled from the spec: `util/monotime.h` is not among the sources. A
monotonic instant / duration is a count of nanoseconds; `MonoTime::Max()` is
the largest representable instant; `MonoDelta::MoreThan` is strict
comparison. -/

structure MonoDelta where
  nanos : Int
deriving DecidableEq, Repr

structure MonoTime where
  nanos : Int
deriving DecidableEq, Repr

def MonoTime.Max : MonoTime := ⟨9223372036854775807⟩

def MonoTime.AddDelta (t : MonoTime) (d : MonoDelta) : MonoTime :=
  ⟨t.nanos + d.nanos⟩

def MonoTime.GetDeltaSince (t u : MonoTime) : MonoDelta :=
  ⟨t.nanos - u.nanos⟩

def MonoDelta.MoreThan (d e : MonoDelta) : Bool := d.nanos > e.nanos

def MonoDelta.ToNanoseconds (d : MonoDelta) : Int := d.nanos

def MonoDelta.FromMilliseconds (ms : Int) : MonoDelta := ⟨ms * 1000000⟩

/-- Modelled from the spec: `MonoDelta::ToString` renders the duration; the
exact rendering is irrelevant to every claim (only the surrounding literal
text of timeout messages matters). -/
def MonoDelta.ToStr (d : MonoDelta) : String := toString d.nanos

/-! ## The reactor's shutdown error (reactor.cc, anonymous namespace) -/

def ShutdownError : Status :=
  Status.serviceUnavailable "reactor is shutting down" "" ESHUTDOWN

/-! ## Foreign-thread facade: task queue and closing flag

Tasks are identified by a `Nat` (the pointer identity of the `ReactorTask`).
`ReactorState` is the shared state guarded by the Reactor's lock: the
monotonic `closing` flag and the pending FIFO.  Effects on tasks
(`Run` / `Abort`) are recorded in the results. -/

structure ReactorState where
  closing : Bool
  pending : List Nat
deriving DecidableEq, Repr

def initReactorState : ReactorState := ⟨false, []⟩

inductive TaskFate
| ran
| aborted (st : Status)
deriving DecidableEq, Repr

/-- Result of `Reactor::ScheduleReactorTask` (reactor.cc:554-566):
`abortedWith = some st` records that `task->Abort(st)` was invoked (without
the lock held); `woke` records the `WakeThread` call. -/
structure ScheduleResult where
  state : ReactorState
  abortedWith : Option Status
  woke : Bool
deriving DecidableEq, Repr

/-- reactor.cc:554-566. Under the lock: if closing, unlock and abort the task
with `ShutdownError`; otherwise append to the pending FIFO and wake the
loop. -/
def Reactor.ScheduleReactorTask (s : ReactorState) (t : Nat) : ScheduleResult :=
  if s.closing then ⟨s, some ShutdownError, false⟩
  else ⟨⟨s.closing, s.pending ++ [t]⟩, none, true⟩

/-- reactor.cc:568-575. Under the lock: if closing, return false leaving the
queue alone; otherwise swap the whole pending queue out and return true. -/
def Reactor.DrainTaskQueue (s : ReactorState) : Bool × ReactorState × List Nat :=
  if s.closing then (false, s, [])
  else (true, ⟨s.closing, []⟩, s.pending)

/-- Result of `Reactor::Shutdown` (reactor.cc:428-446): `woke` records the
`thread_.Shutdown()` wake; `aborted` lists, in FIFO order, the tasks the
foreign-side drain loop aborted together with the status passed to
`Abort`. -/
structure ShutdownResult where
  state : ReactorState
  woke : Bool
  aborted : List (Nat × Status)
deriving DecidableEq, Repr

/-- reactor.cc:428-446. Under the lock: if already closing, return doing
nothing; otherwise set closing. Then wake the loop and abort every task
still in the pending queue with `ShutdownError`. (The wake and the drain run
outside the lock; by then `ScheduleReactorTask` refuses new tasks and
`DrainTaskQueue` returns false, so folding them into one step loses no
interleaving observable by the other operations.) -/
def Reactor.Shutdown (s : ReactorState) : ShutdownResult :=
  if s.closing then ⟨s, false, []⟩
  else ⟨⟨true, []⟩, true, s.pending.map (fun t => (t, ShutdownError))⟩

/-- Result of `ReactorThread::AsyncHandler` (reactor.cc:126-143): `ran` lists
the tasks run on the loop thread, in FIFO order; `brokeLoop` records the
shutdown path (ShutdownInternal + break_loop). -/
structure AsyncResult where
  state : ReactorState
  ran : List Nat
  brokeLoop : Bool
deriving DecidableEq, Repr

/-- reactor.cc:126-143. If closing has been observed, tear down and break the
loop without touching the task queue; otherwise drain the queue and run each
task in FIFO order. -/
def ReactorThread.AsyncHandler (s : ReactorState) : AsyncResult :=
  if s.closing then ⟨s, [], true⟩
  else
    let d := Reactor.DrainTaskQueue s
    ⟨d.2.1, d.2.2, false⟩

/-! ### Trace semantics of the task queue

The three operations that touch the shared queue state, interleaved in any
order. Each step returns the events it emitted: `(t, ran)` when `t.Run` was
invoked, `(t, aborted st)` when `t.Abort(st)` was invoked. -/

inductive RAction
| schedule (t : Nat)
| asyncWake
| shutdownCall
deriving DecidableEq, Repr

def stepR (s : ReactorState) : RAction → ReactorState × List (Nat × TaskFate)
| RAction.schedule t =>
  let r := Reactor.ScheduleReactorTask s t
  match r.abortedWith with
  | some st => (r.state, [(t, TaskFate.aborted st)])
  | none => (r.state, [])
| RAction.asyncWake =>
  let r := ReactorThread.AsyncHandler s
  (r.state, r.ran.map (fun t => (t, TaskFate.ran)))
| RAction.shutdownCall =>
  let r := Reactor.Shutdown s
  (r.state, r.aborted.map (fun p => (p.1, TaskFate.aborted p.2)))

def runR : ReactorState → List RAction → ReactorState × List (Nat × TaskFate)
| s, [] => (s, [])
| s, a :: tr =>
  let p := stepR s a
  let q := runR p.1 tr
  (q.1, p.2 ++ q.2)

/-- Number of Run/Abort events for task `t` in an event log. -/
def fateCount (t : Nat) : List (Nat × TaskFate) → Nat
| [] => 0
| e :: rest => (if e.1 = t then 1 else 0) + fateCount t rest

/-- Number of occurrences of task `t` in a pending queue. -/
def pendCount (t : Nat) : List Nat → Nat
| [] => 0
| x :: rest => (if x = t then 1 else 0) + pendCount t rest

/-- Number of times task `t` is submitted in a trace. -/
def schedCount (t : Nat) : List RAction → Nat
| [] => 0
| RAction.schedule u :: rest => (if u = t then 1 else 0) + schedCount t rest
| RAction.asyncWake :: rest => schedCount t rest
| RAction.shutdownCall :: rest => schedCount t rest

/-- Number of `Run` events in an event log. -/
def ranCount : List (Nat × TaskFate) → Nat
| [] => 0
| (_, TaskFate.ran) :: rest => 1 + ranCount rest
| (_, TaskFate.aborted _) :: rest => ranCount rest

/-- Number of events that are neither a `Run` nor an `Abort(ShutdownError)`. -/
def strayCount : List (Nat × TaskFate) → Nat
| [] => 0
| (_, TaskFate.ran) :: rest => strayCount rest
| (_, TaskFate.aborted st) :: rest =>
  (if st = ShutdownError then 0 else 1) + strayCount rest

/-! ### Counting lemmas -/

lemma fateCount_append (t : Nat) (l₁ l₂ : List (Nat × TaskFate)) :
    fateCount t (l₁ ++ l₂) = fateCount t l₁ + fateCount t l₂ := by
  induction l₁ with
  | nil => simp [fateCount]
  | cons e rest ih => simp [fateCount, ih]; omega

lemma ranCount_append (l₁ l₂ : List (Nat × TaskFate)) :
    ranCount (l₁ ++ l₂) = ranCount l₁ + ranCount l₂ := by
  induction l₁ with
  | nil => simp [ranCount]
  | cons e rest ih =>
    obtain ⟨u, f⟩ := e
    cases f <;> simp [ranCount, ih] <;> omega

lemma strayCount_append (l₁ l₂ : List (Nat × TaskFate)) :
    strayCount (l₁ ++ l₂) = strayCount l₁ + strayCount l₂ := by
  induction l₁ with
  | nil => simp [strayCount]
  | cons e rest ih =>
    obtain ⟨u, f⟩ := e
    cases f <;> simp [strayCount, ih] <;> omega

lemma pendCount_append (t : Nat) (l₁ l₂ : List Nat) :
    pendCount t (l₁ ++ l₂) = pendCount t l₁ + pendCount t l₂ := by
  induction l₁ with
  | nil => simp [pendCount]
  | cons x rest ih => simp [pendCount, ih]; omega

lemma fateCount_map_ran (t : Nat) (l : List Nat) :
    fateCount t (l.map (fun u => (u, TaskFate.ran))) = pendCount t l := by
  induction l with
  | nil => simp [fateCount, pendCount]
  | cons x rest ih => simp [fateCount, pendCount, ih]

lemma fateCount_map_abort (t : Nat) (l : List Nat) :
    fateCount t (l.map (fun u => (u, TaskFate.aborted ShutdownError)))
      = pendCount t l := by
  induction l with
  | nil => simp [fateCount, pendCount]
  | cons x rest ih => simp [fateCount, pendCount, ih]

lemma strayCount_map_ran (l : List Nat) :
    strayCount (l.map (fun u => (u, TaskFate.ran))) = 0 := by
  induction l with
  | nil => simp [strayCount]
  | cons x rest ih => simp [strayCount, ih]

lemma strayCount_map_abort (l : List Nat) :
    strayCount (l.map (fun u => (u, TaskFate.aborted ShutdownError))) = 0 := by
  induction l with
  | nil => simp [strayCount]
  | cons x rest ih => simp [strayCount, ih]

/-! ### Step and trace invariants -/

/-- One step preserves `closing → pending = []`, keeps the per-task count
`events + pending` in balance with submissions, emits no stray fates, and
runs tasks only when not closing. -/
lemma stepR_invariant (s : ReactorState) (a : RAction)
    (h : s.closing = true → s.pending = []) :
    ((stepR s a).1.closing = true → (stepR s a).1.pending = [])
    ∧ (∀ t, fateCount t (stepR s a).2 + pendCount t (stepR s a).1.pending
        = pendCount t s.pending + schedCount t [a])
    ∧ strayCount (stepR s a).2 = 0
    ∧ (s.closing = true → ranCount (stepR s a).2 = 0)
    ∧ (s.closing = true → (stepR s a).1 = s) := by
  cases a with
  | schedule u =>
    by_cases hc : s.closing
    · simp [stepR, Reactor.ScheduleReactorTask, hc, fateCount, pendCount,
        schedCount, strayCount, ranCount, h hc]
    · simp only [Bool.not_eq_true] at hc
      simp [stepR, Reactor.ScheduleReactorTask, hc, fateCount, pendCount,
        schedCount, strayCount, pendCount_append]
  | asyncWake =>
    by_cases hc : s.closing
    · simp [stepR, ReactorThread.AsyncHandler, hc, fateCount, pendCount,
        schedCount, strayCount, ranCount, h hc]
    · simp only [Bool.not_eq_true] at hc
      simp [stepR, ReactorThread.AsyncHandler, Reactor.DrainTaskQueue, hc,
        pendCount, schedCount, fateCount_map_ran, strayCount_map_ran]
  | shutdownCall =>
    by_cases hc : s.closing
    · simp [stepR, Reactor.Shutdown, hc, fateCount, pendCount, schedCount,
        strayCount, ranCount, h hc]
    · simp only [Bool.not_eq_true] at hc
      simp [stepR, Reactor.Shutdown, hc, pendCount, schedCount,
        List.map_map, Function.comp_def, fateCount_map_abort, strayCount_map_abort]

lemma schedCount_cons (t : Nat) (a : RAction) (tr : List RAction) :
    schedCount t (a :: tr) = schedCount t [a] + schedCount t tr := by
  cases a <;> simp [schedCount]

/-- Trace-level invariant: across any interleaving of submissions, loop
wakeups and shutdown calls, every task is accounted for exactly by its
submissions — it is either still pending or has received exactly as many
Run/Abort events; no event has a fate other than `Run` or
`Abort(ShutdownError)`; once closing, the pending queue is empty. -/
lemma runR_invariant (tr : List RAction) : ∀ (s : ReactorState),
    (s.closing = true → s.pending = []) →
    ((runR s tr).1.closing = true → (runR s tr).1.pending = [])
    ∧ (∀ t, fateCount t (runR s tr).2 + pendCount t (runR s tr).1.pending
        = pendCount t s.pending + schedCount t tr)
    ∧ strayCount (runR s tr).2 = 0 := by
  induction tr with
  | nil =>
    intro s h
    exact ⟨h, fun t => by simp [runR, fateCount, schedCount], by simp [runR, strayCount]⟩
  | cons a rest ih =>
    intro s h
    obtain ⟨h1, h2, h3, _, _⟩ := stepR_invariant s a h
    obtain ⟨g1, g2, g3⟩ := ih (stepR s a).1 h1
    refine ⟨?_, ?_, ?_⟩
    · simpa [runR] using g1
    · intro t
      have e2 := h2 t
      have f2 := g2 t
      have : fateCount t ((stepR s a).2 ++ (runR (stepR s a).1 rest).2)
          = fateCount t (stepR s a).2 + fateCount t (runR (stepR s a).1 rest).2 :=
        fateCount_append t _ _
      simp only [runR]
      rw [schedCount_cons]
      omega
    · simp only [runR]
      rw [strayCount_append]
      omega

/-- Once the closing flag is observed by a step, that step leaves the state
untouched and runs no task. -/
lemma stepR_closing (s : ReactorState) (a : RAction) (h : s.closing = true) :
    (stepR s a).1 = s ∧ ranCount (stepR s a).2 = 0 := by
  cases a <;>
    simp [stepR, Reactor.ScheduleReactorTask, ReactorThread.AsyncHandler,
      Reactor.Shutdown, h, ranCount]

/-- Once the closing flag is set, every later state is unchanged and no
task is ever Run. -/
lemma runR_closing (tr : List RAction) : ∀ (s : ReactorState),
    s.closing = true →
    (runR s tr).1 = s ∧ ranCount (runR s tr).2 = 0 := by
  induction tr with
  | nil => intro s h; simp [runR, ranCount]
  | cons a rest ih =>
    intro s h
    obtain ⟨h1, h2⟩ := stepR_closing s a h
    obtain ⟨g1, g2⟩ := ih (stepR s a).1 (by rw [h1]; exact h)
    constructor
    · simpa [runR, h1] using g1
    · simp only [runR]
      rw [ranCount_append]
      omega

/-! ## Loop-side state: connection tables

`ConnectionId` (rpc/connection.h): identity of a remote endpoint for
client-side reuse — remote address, service name, user credentials; equality
uses all three fields. `Connection` keeps the fields the reactor reads:
pointer identity (`ptr`), direction, the ConnectionId components, and the
observation fields `idle` / `last_activity_time` exposed by
`Connection::Idle()` and `Connection::last_activity_time()` (the Connection
implementation is outside the sources; these enter as plain data). -/

structure Sockaddr where
  addr : Nat
deriving DecidableEq, Repr

structure ConnectionId where
  remote : Sockaddr
  service_name : String
  user_credentials : String
deriving DecidableEq, Repr

inductive Direction
| CLIENT
| SERVER
deriving DecidableEq, Repr

structure Connection where
  ptr : Nat
  direction : Direction
  remote : Sockaddr
  service_name : String
  user_credentials : String
  idle : Bool
  last_activity_time : MonoTime
deriving DecidableEq, Repr

/-- Placeholder for dereferencing the `conn` out-parameter; only ever read
behind a proof that the parameter was set (`fos_ok_conn`). -/
def nullConnection : Connection :=
  ⟨0, Direction.CLIENT, ⟨0⟩, "", "", true, ⟨0⟩⟩

/-- Loop-confined state of a `ReactorThread`: the two connection tables
(`client_conns_` as an association list with unique keys, `server_conns_` as
an insertion-ordered sequence), a counter supplying fresh pointer
identities for `new Connection`, the cached coarse clock, and the keepalive
configuration from the `MessengerBuilder`. -/
structure ThreadState where
  client_conns : List (ConnectionId × Connection)
  server_conns : List Connection
  next_ptr : Nat
  cur_time : MonoTime
  connection_keepalive_time : MonoDelta
deriving DecidableEq, Repr

/-- `client_conns_.find(conn_id)`: first entry with the given key. -/
def lookupConn : List (ConnectionId × Connection) → ConnectionId → Option Connection
| [], _ => none
| e :: rest, cid => if e.1 = cid then some e.2 else lookupConn rest cid

/-- Number of entries with the given key (an `unordered_map` keeps it ≤ 1). -/
def countKey (cid : ConnectionId) : List (ConnectionId × Connection) → Nat
| [] => 0
| e :: rest => (if e.1 = cid then 1 else 0) + countKey cid rest

/-- `client_conns_.erase(it)` after a successful `find`: remove the first
entry with the given key. -/
def eraseKey (cid : ConnectionId) : List (ConnectionId × Connection) →
    List (ConnectionId × Connection)
| [] => []
| e :: rest => if e.1 = cid then rest else e :: eraseKey cid rest

/-- The pointer-identity erase loop of `DestroyConnection` on
`server_conns_`: remove the first element whose pointer matches, then
break. -/
def erasePtr (p : Nat) : List Connection → List Connection
| [] => []
| c :: rest => if c.ptr = p then rest else c :: erasePtr p rest

/-! ## Environment: results of the external calls

The reactor calls out to `Socket::Init`, `Socket::SetNoDelay`,
`Socket::Connect` and `TaskExecutor::SubmitFutureTask`; their returned
statuses are inputs of the model. -/

structure Env where
  socketInitResult : Status
  setNoDelayResult : Status
  connectResult : Status
  submitFutureTaskResult : Status
deriving DecidableEq, Repr

/-- Modelled from the spec: `Socket::IsTemporarySocketError` (util/net/socket
is not among the sources); per the spec's error taxonomy, EAGAIN/EWOULDBLOCK
during connect are transient. -/
def IsTemporarySocketError (posix : Int) : Bool :=
  posix = EAGAIN || posix = EWOULDBLOCK

/-- reactor.cc:359-368. `ret = sock->Init(NONBLOCKING)`; if ok,
`ret = sock->SetNoDelay(true)`; return `ret`. -/
def CreateClientSocket (env : Env) : Status :=
  let ret := env.socketInitResult
  if ret.ok then env.setNoDelayResult else ret

/-- reactor.cc:370-389. Returns the status and the `in_progress` flag:
immediate connect success → (OK, false); a temporary error or EINPROGRESS →
(OK, true); any other error is returned as-is. -/
def StartConnect (env : Env) : Status × Bool :=
  let ret := env.connectResult
  if ret.ok then (ret, false)
  else if IsTemporarySocketError ret.posix_code || ret.posix_code = EINPROGRESS then
    (Status.OK, true)
  else (ret, false)

/-- reactor.cc:312-330. Both directions build a negotiation task with a
callback and submit it to the messenger's negotiation executor; the
synchronous result is the submission status. -/
def StartConnectionNegotiation (env : Env) (conn : Connection)
    (deadline : MonoTime) : Status :=
  match conn.direction with
  | Direction.SERVER => env.submitFutureTaskResult
  | Direction.CLIENT => env.submitFutureTaskResult

/-- The `new Connection(this, conn_id.remote(), sock.Release(), CLIENT)`
construction of FindOrStartConnection followed by `set_service_name` /
`set_user_credentials` (reactor.cc:293-295). The fresh pointer identity is
`next_ptr`; the observation fields start idle at the current coarse time
(they belong to the external Connection implementation and are irrelevant
until the connection is registered). -/
def newClientConn (st : ThreadState) (conn_id : ConnectionId) : Connection :=
  ⟨st.next_ptr, Direction.CLIENT, conn_id.remote, conn_id.service_name,
    conn_id.user_credentials, true, st.cur_time⟩

/-- Result of `FindOrStartConnection` (reactor.cc:272-310): the returned
status, the `*conn` out-parameter (`none` = never assigned), and whether a
client socket object was created (the lookup-hit path returns before
`CreateClientSocket`). -/
structure FosResult where
  state : ThreadState
  conn : Option Connection
  status : Status
  createdSocket : Bool
deriving DecidableEq, Repr

/-- reactor.cc:272-310. Lookup in `client_conns_` and return on a hit;
otherwise create a socket, start the connect, construct a CLIENT Connection,
submit it for negotiation (remapping illegal-state to the friendly
service-unavailable and prepending context to other errors), and only on
full success insert into `client_conns_`. -/
def FindOrStartConnection (st : ThreadState) (env : Env) (conn_id : ConnectionId)
    (deadline : MonoTime) : FosResult :=
  match lookupConn st.client_conns conn_id with
  | some c => ⟨st, some c, Status.OK, false⟩
  | none =>
    let create := CreateClientSocket env
    if ¬create.ok then ⟨st, none, create, true⟩
    else
      let sc := StartConnect env
      if ¬sc.1.ok then ⟨st, none, sc.1, true⟩
      else
        let conn := newClientConn st conn_id
        let s := StartConnectionNegotiation env conn deadline
        if s.IsIllegalState then
          ⟨st, some conn, Status.serviceUnavailable "Client RPC Messenger shutting down" "" (-1), true⟩
        else if ¬s.ok then
          ⟨st, some conn, s.CloneAndPrepend "Unable to start connection negotiation thread", true⟩
        else
          ⟨⟨(conn_id, conn) :: st.client_conns, st.server_conns, st.next_ptr + 1,
              st.cur_time, st.connection_keepalive_time⟩,
            some conn, Status.OK, true⟩

/-- reactor.cc:391-413. Shut the connection down with the given status, then
unlink: a CLIENT connection is looked up in `client_conns_` by its
reconstructed ConnectionId — `CHECK(it != client_conns_.end())` makes a miss
fatal, modelled as `none`; a SERVER connection is removed from
`server_conns_` by a linear pointer-identity scan that simply finds nothing
when absent. The second component records the `conn->Shutdown(conn_status)`
call. -/
def DestroyConnection (st : ThreadState) (conn : Connection)
    (conn_status : Status) : Option (ThreadState × (Connection × Status)) :=
  match conn.direction with
  | Direction.CLIENT =>
    let conn_id : ConnectionId := ⟨conn.remote, conn.service_name, conn.user_credentials⟩
    match lookupConn st.client_conns conn_id with
    | none => none
    | some _ =>
      some (⟨eraseKey conn_id st.client_conns, st.server_conns, st.next_ptr,
          st.cur_time, st.connection_keepalive_time⟩,
        (conn, conn_status))
  | Direction.SERVER =>
    some (⟨st.client_conns, erasePtr conn.ptr st.server_conns, st.next_ptr,
        st.cur_time, st.connection_keepalive_time⟩,
      (conn, conn_status))

/-- Default server negotiation timeout flag (reactor.cc:38), milliseconds. -/
def FLAGS_server_negotiation_timeout : Int := 3000

/-- Result of `RegisterConnection` (reactor.cc:145-158): `destroyed` records
the `DestroyConnection(conn, s)` call on the failed-submission path. -/
structure RegisterResult where
  state : ThreadState
  destroyed : Option (Connection × Status)
  deadline : MonoTime
deriving DecidableEq, Repr

/-- reactor.cc:145-158. Compute the negotiation deadline, submit the
connection for negotiation; on synchronous failure call DestroyConnection
with that error — and then, with no early return in the source,
`server_conns_.push_back(conn)` executes on every path, appending the
connection even when it was just destroyed. A fatal CHECK inside
DestroyConnection propagates as `none`. -/
def RegisterConnection (st : ThreadState) (env : Env) (now : MonoTime)
    (conn : Connection) : Option RegisterResult :=
  let deadline := now.AddDelta (MonoDelta.FromMilliseconds FLAGS_server_negotiation_timeout)
  let s := StartConnectionNegotiation env conn deadline
  if s.ok then
    some ⟨⟨st.client_conns, st.server_conns ++ [conn], st.next_ptr,
        st.cur_time, st.connection_keepalive_time⟩,
      none, deadline⟩
  else
    match DestroyConnection st conn s with
    | none => none
    | some (st', eff) =>
      some ⟨⟨st'.client_conns, st'.server_conns ++ [conn], st'.next_ptr,
          st'.cur_time, st'.connection_keepalive_time⟩,
        some eff, deadline⟩

/-- The idle-timeout status of reactor.cc:227-229. -/
def timeoutStatus (keepalive : MonoDelta) : Status :=
  Status.networkError ("connection timed out after " ++ keepalive.ToStr ++ " seconds")

/-- The timeout test of reactor.cc:219-226: the connection reports idle and
its inactivity measured against the cached coarse clock strictly exceeds the
keepalive. -/
def timedOut (cur : MonoTime) (keepalive : MonoDelta) (c : Connection) : Bool :=
  c.idle && (cur.GetDeltaSince c.last_activity_time).MoreThan keepalive

/-- The iterator walk of `ScanIdleConnections` (reactor.cc:214-237): advance
past non-idle connections; shut down and erase (iterator post-incremented
before the erase) any idle connection past the keepalive; keep the rest.
Returns the surviving list and the `conn->Shutdown(status)` calls in order. -/
def scanWalk (cur : MonoTime) (keepalive : MonoDelta) :
    List Connection → List Connection × List (Connection × Status)
| [] => ([], [])
| c :: rest =>
  let r := scanWalk cur keepalive rest
  if !c.idle then (c :: r.1, r.2)
  else if (cur.GetDeltaSince c.last_activity_time).MoreThan keepalive then
    (r.1, (c, timeoutStatus keepalive) :: r.2)
  else (c :: r.1, r.2)

/-- Result of `ScanIdleConnections`: the new state and the shutdown calls. -/
structure ScanResult where
  state : ThreadState
  shutdowns : List (Connection × Status)
deriving DecidableEq, Repr

/-- reactor.cc:211-243. Walk `server_conns_` with the in-place erase loop;
`client_conns_` is untouched (client-side aging is a documented TODO). -/
def ScanIdleConnections (st : ThreadState) : ScanResult :=
  let r := scanWalk st.cur_time st.connection_keepalive_time st.server_conns
  ⟨⟨st.client_conns, r.1, st.next_ptr, st.cur_time, st.connection_keepalive_time⟩, r.2⟩

/-! ## AssignOutboundCall -/

structure OutboundCall where
  conn_id : ConnectionId
  timeout : MonoDelta
  method : String
deriving DecidableEq, Repr

/-- What happened to the call: `SetFailed(s)` or
`conn->QueueOutboundCall(call)`. -/
inductive CallOutcome
| failed (s : Status)
| queuedTo (c : Connection)
deriving DecidableEq, Repr

def CallOutcome.isQueued : CallOutcome → Bool
| CallOutcome.failed _ => false
| CallOutcome.queuedTo _ => true

/-- The deadline computation of reactor.cc:165-175: a zero timeout means no
deadline (`MonoTime::Max()`, with a warning); otherwise fine-clock now plus
the timeout. -/
def callDeadline (now : MonoTime) (call : OutboundCall) : MonoTime :=
  if call.timeout.ToNanoseconds = 0 then MonoTime.Max
  else now.AddDelta call.timeout

structure AssignResult where
  state : ThreadState
  warned : Bool
  deadline : MonoTime
  outcome : CallOutcome
deriving DecidableEq, Repr

/-- reactor.cc:160-184. Compute the deadline (warning on a zero timeout),
call FindOrStartConnection; on error mark the call failed with that status
and return, otherwise hand the call to the Connection's outbound queue. -/
def AssignOutboundCall (st : ThreadState) (env : Env) (now : MonoTime)
    (call : OutboundCall) : AssignResult :=
  let warned := call.timeout.ToNanoseconds = 0
  let deadline := callDeadline now call
  let r := FindOrStartConnection st env call.conn_id deadline
  if ¬r.status.ok then ⟨r.state, warned, deadline, CallOutcome.failed r.status⟩
  else ⟨r.state, warned, deadline, CallOutcome.queuedTo (r.conn.getD nullConnection)⟩

/-! ## Claim theorems: the task queue -/

/-- C1: For every task accepted by `Reactor::ScheduleReactorTask`, exactly
one of Run (on the loop thread) or Abort (with an error status) is
eventually invoked. Over any interleaving of submissions, loop wakeups and
shutdown calls in which task `t` is submitted once: the number of Run/Abort
events for `t` plus its occurrences still pending is exactly one, so once
the reactor is closing (pending drained by Shutdown) `t` has received
exactly one of Run/Abort — never both, never none; and every Abort carries
the shutdown error. -/
theorem no_task_leak_exactly_once (tr : List RAction) (t : Nat)
    (h : schedCount t tr = 1) :
    fateCount t (runR initReactorState tr).2
        + pendCount t (runR initReactorState tr).1.pending = 1
    ∧ ((runR initReactorState tr).1.closing = true →
        fateCount t (runR initReactorState tr).2 = 1)
    ∧ strayCount (runR initReactorState tr).2 = 0 := by
  obtain ⟨h1, h2, h3⟩ := runR_invariant tr initReactorState
    (by intro _; rfl)
  have e := h2 t
  rw [h] at e
  have hpend0 : pendCount t (initReactorState.pending) = 0 := rfl
  rw [hpend0] at e
  refine ⟨by omega, ?_, h3⟩
  intro hcl
  have := h1 hcl
  rw [this] at e
  simpa [pendCount] using e

theorem no_task_leak_exactly_once_witness :
    schedCount 5 [RAction.schedule 5, RAction.asyncWake, RAction.shutdownCall] = 1
    ∧ (fateCount 5 (runR initReactorState
          [RAction.schedule 5, RAction.asyncWake, RAction.shutdownCall]).2
        + pendCount 5 (runR initReactorState
          [RAction.schedule 5, RAction.asyncWake, RAction.shutdownCall]).1.pending = 1
      ∧ ((runR initReactorState
          [RAction.schedule 5, RAction.asyncWake, RAction.shutdownCall]).1.closing = true →
          fateCount 5 (runR initReactorState
            [RAction.schedule 5, RAction.asyncWake, RAction.shutdownCall]).2 = 1)
      ∧ strayCount (runR initReactorState
          [RAction.schedule 5, RAction.asyncWake, RAction.shutdownCall]).2 = 0) :=
  ⟨by decide,
    no_task_leak_exactly_once [RAction.schedule 5, RAction.asyncWake, RAction.shutdownCall]
      5 (by decide)⟩

/-- C2: After `Reactor::Shutdown` returns the closing flag is set, so no
further task is ever Run (over any subsequent interleaving the event log
holds no Run event); every subsequent `ScheduleReactorTask` aborts its
argument with the shutdown error — service-unavailable, errno ESHUTDOWN
(108), message "reactor is shutting down" — without enqueueing or waking;
and `DrainTaskQueue` returns false leaving the (empty) queue untouched. -/
theorem shutdown_safety (s : ReactorState) (tr : List RAction) (t : Nat) :
    (Reactor.Shutdown s).state.closing = true
    ∧ Reactor.ScheduleReactorTask (Reactor.Shutdown s).state t
        = ⟨(Reactor.Shutdown s).state, some ShutdownError, false⟩
    ∧ ShutdownError
        = ⟨StatusCode.ServiceUnavailable, "reactor is shutting down", "", 108⟩
    ∧ Reactor.DrainTaskQueue (Reactor.Shutdown s).state
        = (false, (Reactor.Shutdown s).state, [])
    ∧ ranCount (runR (Reactor.Shutdown s).state tr).2 = 0 := by
  have hcl : (Reactor.Shutdown s).state.closing = true := by
    by_cases hc : s.closing = true
    · simp [Reactor.Shutdown, hc]
    · simp only [Bool.not_eq_true] at hc
      simp [Reactor.Shutdown, hc]
  refine ⟨hcl, ?_, rfl, ?_, (runR_closing tr _ hcl).2⟩
  · simp [Reactor.ScheduleReactorTask, hcl]
  · simp [Reactor.DrainTaskQueue, hcl]

/-- C8: `Reactor::Shutdown` is idempotent. A first call (closing not yet
set) sets the closing flag, clears the queue, wakes the loop, and aborts
every pending task with the shutdown error; any call that observes closing
already set returns with the state unchanged, no wake, and no aborts. -/
theorem reactor_shutdown_idempotent (s : ReactorState) (h : s.closing = false) :
    Reactor.Shutdown s
        = ⟨⟨true, []⟩, true, s.pending.map (fun u => (u, ShutdownError))⟩
    ∧ Reactor.Shutdown (Reactor.Shutdown s).state
        = ⟨(Reactor.Shutdown s).state, false, []⟩
    ∧ (∀ s2 : ReactorState, s2.closing = true →
        Reactor.Shutdown s2 = ⟨s2, false, []⟩) := by
  have h1 : Reactor.Shutdown s
      = ⟨⟨true, []⟩, true, s.pending.map (fun u => (u, ShutdownError))⟩ := by
    simp [Reactor.Shutdown, h]
  refine ⟨h1, ?_, ?_⟩
  · rw [h1]
    simp [Reactor.Shutdown]
  · intro s2 h2
    simp [Reactor.Shutdown, h2]

theorem reactor_shutdown_idempotent_witness :
    (ReactorState.mk false [3]).closing = false
    ∧ (Reactor.Shutdown ⟨false, [3]⟩
        = ⟨⟨true, []⟩, true, ([3] : List Nat).map (fun u => (u, ShutdownError))⟩
      ∧ Reactor.Shutdown (Reactor.Shutdown ⟨false, [3]⟩).state
        = ⟨(Reactor.Shutdown ⟨false, [3]⟩).state, false, []⟩
      ∧ (∀ s2 : ReactorState, s2.closing = true →
          Reactor.Shutdown s2 = ⟨s2, false, []⟩)) :=
  ⟨rfl, reactor_shutdown_idempotent ⟨false, [3]⟩ rfl⟩

/-! ## Helper lemmas about statuses and the client table -/

@[simp] lemma Status.ok_serviceUnavailable (m m2 : String) (p : Int) :
    (Status.serviceUnavailable m m2 p).ok = false := rfl

@[simp] lemma Status.ok_CloneAndPrepend (s : Status) (p : String) :
    (s.CloneAndPrepend p).ok = s.ok := rfl

@[simp] lemma Status.ok_OK : Status.OK.ok = true := rfl

lemma Status.illegalState_not_ok (s : Status) (h : s.IsIllegalState = true) :
    s.ok = false := by
  simp only [Status.IsIllegalState, decide_eq_true_eq] at h
  simp [Status.ok, h]

lemma countKey_zero_lookup (cid : ConnectionId) :
    ∀ l : List (ConnectionId × Connection),
      countKey cid l = 0 → lookupConn l cid = none := by
  intro l
  induction l with
  | nil => intro _; rfl
  | cons e rest ih =>
    intro h
    simp only [countKey] at h
    by_cases he : e.1 = cid
    · simp [he] at h
    · simp only [lookupConn, he, if_false]
      exact ih (by omega)

/-- On the success path, `FindOrStartConnection` on a fresh ConnectionId
returns exactly the freshly constructed CLIENT connection, inserted at the
head of `client_conns`. -/
lemma fos_ok_shape (st : ThreadState) (env : Env) (cid : ConnectionId)
    (dl : MonoTime)
    (habs : lookupConn st.client_conns cid = none)
    (hok : (FindOrStartConnection st env cid dl).status.ok = true) :
    FindOrStartConnection st env cid dl
      = ⟨⟨(cid, newClientConn st cid) :: st.client_conns, st.server_conns,
          st.next_ptr + 1, st.cur_time, st.connection_keepalive_time⟩,
        some (newClientConn st cid), Status.OK, true⟩ := by
  cases h1 : (CreateClientSocket env).ok with
  | false => simp [FindOrStartConnection, habs, h1] at hok
  | true =>
    cases h2 : (StartConnect env).1.ok with
    | false => simp [FindOrStartConnection, habs, h1, h2] at hok
    | true =>
      cases h3 : (StartConnectionNegotiation env (newClientConn st cid) dl).IsIllegalState with
      | true => simp [FindOrStartConnection, habs, h1, h2, h3] at hok
      | false =>
        cases h4 : (StartConnectionNegotiation env (newClientConn st cid) dl).ok with
        | false => simp [FindOrStartConnection, habs, h1, h2, h3, h4] at hok
        | true => simp [FindOrStartConnection, habs, h1, h2, h3, h4]

/-- On every failure path, `FindOrStartConnection` on a fresh ConnectionId
leaves the thread state — in particular `client_conns` — unchanged. -/
lemma fos_fail_frame (st : ThreadState) (env : Env) (cid : ConnectionId)
    (dl : MonoTime)
    (habs : lookupConn st.client_conns cid = none)
    (hfail : (FindOrStartConnection st env cid dl).status.ok = false) :
    (FindOrStartConnection st env cid dl).state = st := by
  cases h1 : (CreateClientSocket env).ok with
  | false => simp [FindOrStartConnection, habs, h1]
  | true =>
    cases h2 : (StartConnect env).1.ok with
    | false => simp [FindOrStartConnection, habs, h1, h2]
    | true =>
      cases h3 : (StartConnectionNegotiation env (newClientConn st cid) dl).IsIllegalState with
      | true => simp [FindOrStartConnection, habs, h1, h2, h3]
      | false =>
        cases h4 : (StartConnectionNegotiation env (newClientConn st cid) dl).ok with
        | false => simp [FindOrStartConnection, habs, h1, h2, h3, h4]
        | true => simp [FindOrStartConnection, habs, h1, h2, h3, h4] at hfail

/-! ## Sample inputs used by the witnesses -/

def st0 : ThreadState := ⟨[], [], 0, ⟨0⟩, ⟨0⟩⟩

def cid0 : ConnectionId := ⟨⟨1⟩, "calc_svc", "alice"⟩

def dl0 : MonoTime := ⟨1000⟩

def envAllOk : Env := ⟨Status.OK, Status.OK, Status.OK, Status.OK⟩

def envConnectFail : Env :=
  ⟨Status.OK, Status.OK, Status.networkError "connection refused", Status.OK⟩

def envIllegal : Env :=
  ⟨Status.OK, Status.OK, Status.OK, Status.illegalState "ThreadPool is closing"⟩

def envSubmitFail : Env :=
  ⟨Status.OK, Status.OK, Status.OK, Status.runtimeError "thread spawn failed"⟩

/-! ## Claim theorems: FindOrStartConnection -/

/-- C4: For a ConnectionId not already in `client_conns`, any error from
socket creation, connect, or negotiation submission makes
`FindOrStartConnection` return with the state — in particular
`client_conns` — unchanged: the new Connection is never inserted. Insertion
happens only on the all-success path, which returns OK with the fresh
connection at the head of `client_conns`. -/
theorem fos_error_frame (st : ThreadState) (env : Env) (cid : ConnectionId)
    (dl : MonoTime)
    (habs : lookupConn st.client_conns cid = none) :
    ((FindOrStartConnection st env cid dl).status.ok = false →
      (FindOrStartConnection st env cid dl).state = st)
    ∧ ((FindOrStartConnection st env cid dl).status.ok = true →
      FindOrStartConnection st env cid dl
        = ⟨⟨(cid, newClientConn st cid) :: st.client_conns, st.server_conns,
            st.next_ptr + 1, st.cur_time, st.connection_keepalive_time⟩,
          some (newClientConn st cid), Status.OK, true⟩) :=
  ⟨fos_fail_frame st env cid dl habs, fos_ok_shape st env cid dl habs⟩

theorem fos_error_frame_witness :
    lookupConn st0.client_conns cid0 = none
    ∧ (((FindOrStartConnection st0 envConnectFail cid0 dl0).status.ok = false →
        (FindOrStartConnection st0 envConnectFail cid0 dl0).state = st0)
      ∧ ((FindOrStartConnection st0 envConnectFail cid0 dl0).status.ok = true →
        FindOrStartConnection st0 envConnectFail cid0 dl0
          = ⟨⟨(cid0, newClientConn st0 cid0) :: st0.client_conns, st0.server_conns,
              st0.next_ptr + 1, st0.cur_time, st0.connection_keepalive_time⟩,
            some (newClientConn st0 cid0), Status.OK, true⟩)) :=
  ⟨rfl, fos_error_frame st0 envConnectFail cid0 dl0 rfl⟩

/-- C5: When the negotiation submission reports illegal-state,
`FindOrStartConnection` returns the user-friendly service-unavailable
"Client RPC Messenger shutting down"; any other submission error is
propagated with its code intact and its message prefixed by "Unable to
start connection negotiation thread". -/
theorem negotiation_error_remap (st : ThreadState) (env : Env)
    (cid : ConnectionId) (dl : MonoTime)
    (habs : lookupConn st.client_conns cid = none)
    (hcreate : (CreateClientSocket env).ok = true)
    (hconnect : (StartConnect env).1.ok = true) :
    (env.submitFutureTaskResult.IsIllegalState = true →
      (FindOrStartConnection st env cid dl).status
        = Status.serviceUnavailable "Client RPC Messenger shutting down" "" (-1))
    ∧ (env.submitFutureTaskResult.ok = false →
       env.submitFutureTaskResult.IsIllegalState = false →
      (FindOrStartConnection st env cid dl).status
          = env.submitFutureTaskResult.CloneAndPrepend
              "Unable to start connection negotiation thread"
        ∧ (FindOrStartConnection st env cid dl).status.code
          = env.submitFutureTaskResult.code
        ∧ (FindOrStartConnection st env cid dl).status.msg
          = "Unable to start connection negotiation thread: "
              ++ env.submitFutureTaskResult.msg) := by
  constructor
  · intro h3
    simp [FindOrStartConnection, habs, hcreate, hconnect,
      StartConnectionNegotiation, newClientConn, h3]
  · intro h4 h3
    simp [FindOrStartConnection, habs, hcreate, hconnect,
      StartConnectionNegotiation, newClientConn, h3, h4, Status.CloneAndPrepend]

theorem negotiation_error_remap_witness :
    (lookupConn st0.client_conns cid0 = none
      ∧ (CreateClientSocket envIllegal).ok = true
      ∧ (StartConnect envIllegal).1.ok = true)
    ∧ ((envIllegal.submitFutureTaskResult.IsIllegalState = true →
        (FindOrStartConnection st0 envIllegal cid0 dl0).status
          = Status.serviceUnavailable "Client RPC Messenger shutting down" "" (-1))
      ∧ (envIllegal.submitFutureTaskResult.ok = false →
         envIllegal.submitFutureTaskResult.IsIllegalState = false →
        (FindOrStartConnection st0 envIllegal cid0 dl0).status
            = envIllegal.submitFutureTaskResult.CloneAndPrepend
                "Unable to start connection negotiation thread"
          ∧ (FindOrStartConnection st0 envIllegal cid0 dl0).status.code
            = envIllegal.submitFutureTaskResult.code
          ∧ (FindOrStartConnection st0 envIllegal cid0 dl0).status.msg
            = "Unable to start connection negotiation thread: "
                ++ envIllegal.submitFutureTaskResult.msg)) :=
  ⟨⟨rfl, rfl, rfl⟩, negotiation_error_remap st0 envIllegal cid0 dl0 rfl rfl rfl⟩

/-! ## Helper lemmas: AssignOutboundCall and the erase loops -/

lemma assign_isQueued (st : ThreadState) (env : Env) (now : MonoTime)
    (call : OutboundCall) :
    ((AssignOutboundCall st env now call).outcome).isQueued
      = (FindOrStartConnection st env call.conn_id (callDeadline now call)).status.ok := by
  cases h : (FindOrStartConnection st env call.conn_id (callDeadline now call)).status.ok with
  | true => simp [AssignOutboundCall, h, CallOutcome.isQueued]
  | false => simp [AssignOutboundCall, h, CallOutcome.isQueued]

lemma assign_state (st : ThreadState) (env : Env) (now : MonoTime)
    (call : OutboundCall) :
    (AssignOutboundCall st env now call).state
      = (FindOrStartConnection st env call.conn_id (callDeadline now call)).state := by
  cases h : (FindOrStartConnection st env call.conn_id (callDeadline now call)).status.ok with
  | true => simp [AssignOutboundCall, h]
  | false => simp [AssignOutboundCall, h]

lemma assign_deadline (st : ThreadState) (env : Env) (now : MonoTime)
    (call : OutboundCall) :
    (AssignOutboundCall st env now call).deadline = callDeadline now call := by
  cases h : (FindOrStartConnection st env call.conn_id (callDeadline now call)).status.ok with
  | true => simp [AssignOutboundCall, h]
  | false => simp [AssignOutboundCall, h]

lemma assign_warned (st : ThreadState) (env : Env) (now : MonoTime)
    (call : OutboundCall) :
    (AssignOutboundCall st env now call).warned
      = decide (call.timeout.ToNanoseconds = 0) := by
  cases h : (FindOrStartConnection st env call.conn_id (callDeadline now call)).status.ok with
  | true => simp [AssignOutboundCall, h]
  | false => simp [AssignOutboundCall, h]

lemma assign_outcome_of_fos_ok (st : ThreadState) (env : Env) (now : MonoTime)
    (call : OutboundCall) (c : Connection)
    (h : FindOrStartConnection st env call.conn_id (callDeadline now call)
      = ⟨st, some c, Status.OK, false⟩) :
    (AssignOutboundCall st env now call).outcome = CallOutcome.queuedTo c := by
  simp [AssignOutboundCall, h]

lemma erasePtr_not_mem (p : Nat) (l : List Connection)
    (h : p ∉ l.map Connection.ptr) : erasePtr p l = l := by
  induction l with
  | nil => rfl
  | cons c rest ih =>
    simp only [List.map_cons, List.mem_cons] at h
    push_neg at h
    simp only [erasePtr]
    rw [if_neg (fun hc => h.1 hc.symm), ih h.2]

/-! ## Claim theorems: connection lifecycle -/

/-- C6: A ConnectionId already present in `client_conns` makes
`FindOrStartConnection` a pure lookup: the existing Connection is returned,
no socket is created, and the state is unchanged. Consequently, two
successful `AssignOutboundCall` operations with equal ConnectionId leave
exactly one entry for that id: the first inserts the fresh connection, the
second finds it, creates no socket, changes nothing, and queues onto the
same connection. -/
theorem client_conn_dedup (st : ThreadState) (env env2 : Env)
    (now now2 : MonoTime) (c1 c2 : OutboundCall)
    (hid : c2.conn_id = c1.conn_id)
    (habs : countKey c1.conn_id st.client_conns = 0)
    (h1 : ((AssignOutboundCall st env now c1).outcome).isQueued = true) :
    (∀ (st' : ThreadState) (c : Connection) (dl : MonoTime),
        lookupConn st'.client_conns c2.conn_id = some c →
        FindOrStartConnection st' env2 c2.conn_id dl = ⟨st', some c, Status.OK, false⟩)
    ∧ countKey c1.conn_id
        (AssignOutboundCall (AssignOutboundCall st env now c1).state env2 now2 c2).state.client_conns
      = 1
    ∧ (AssignOutboundCall (AssignOutboundCall st env now c1).state env2 now2 c2).state
      = (AssignOutboundCall st env now c1).state
    ∧ (FindOrStartConnection (AssignOutboundCall st env now c1).state env2 c2.conn_id
        (callDeadline now2 c2)).createdSocket = false
    ∧ ((AssignOutboundCall (AssignOutboundCall st env now c1).state env2 now2 c2).outcome).isQueued
      = true := by
  have hlk : lookupConn st.client_conns c1.conn_id = none :=
    countKey_zero_lookup c1.conn_id st.client_conns habs
  have hok : (FindOrStartConnection st env c1.conn_id (callDeadline now c1)).status.ok = true := by
    rw [← assign_isQueued]
    exact h1
  have hshape := fos_ok_shape st env c1.conn_id (callDeadline now c1) hlk hok
  have hs1 : (AssignOutboundCall st env now c1).state
      = ⟨(c1.conn_id, newClientConn st c1.conn_id) :: st.client_conns, st.server_conns,
          st.next_ptr + 1, st.cur_time, st.connection_keepalive_time⟩ := by
    rw [assign_state, hshape]
  have hlk2 : lookupConn (AssignOutboundCall st env now c1).state.client_conns c2.conn_id
      = some (newClientConn st c1.conn_id) := by
    rw [hs1, hid]
    simp [lookupConn]
  have hfos2 : FindOrStartConnection (AssignOutboundCall st env now c1).state env2 c2.conn_id
        (callDeadline now2 c2)
      = ⟨(AssignOutboundCall st env now c1).state, some (newClientConn st c1.conn_id),
          Status.OK, false⟩ := by
    simp [FindOrStartConnection, hlk2]
  refine ⟨?_, ?_, ?_, ?_, ?_⟩
  · intro st' c dl hl
    simp [FindOrStartConnection, hl]
  · rw [assign_state, hfos2, hs1]
    simp [countKey, habs]
  · rw [assign_state, hfos2]
  · rw [hfos2]
  · rw [assign_outcome_of_fos_ok (AssignOutboundCall st env now c1).state env2 now2 c2
      (newClientConn st c1.conn_id) hfos2]
    rfl

theorem client_conn_dedup_witness :
    ((⟨cid0, ⟨1000⟩, "Add"⟩ : OutboundCall).conn_id
        = (⟨cid0, ⟨2000⟩, "Sub"⟩ : OutboundCall).conn_id
      ∧ countKey (⟨cid0, ⟨2000⟩, "Sub"⟩ : OutboundCall).conn_id st0.client_conns = 0
      ∧ ((AssignOutboundCall st0 envAllOk ⟨50⟩ ⟨cid0, ⟨2000⟩, "Sub"⟩).outcome).isQueued = true)
    ∧ countKey (⟨cid0, ⟨2000⟩, "Sub"⟩ : OutboundCall).conn_id
        (AssignOutboundCall (AssignOutboundCall st0 envAllOk ⟨50⟩ ⟨cid0, ⟨2000⟩, "Sub"⟩).state
          envAllOk ⟨60⟩ ⟨cid0, ⟨1000⟩, "Add"⟩).state.client_conns = 1 :=
  ⟨⟨rfl, rfl, by decide⟩,
    ((client_conn_dedup st0 envAllOk envAllOk ⟨50⟩ ⟨60⟩
      ⟨cid0, ⟨2000⟩, "Sub"⟩ ⟨cid0, ⟨1000⟩, "Add"⟩ rfl rfl (by decide)).2).1⟩

/-- C7: `ScanIdleConnections` removes from `server_conns` exactly the
connections that report idle and have been inactive, measured against the
cached coarse clock, strictly longer than the keepalive, shutting each down
with the network-error status "connection timed out after … seconds"; every
other connection survives in order, and `client_conns` is untouched. -/
theorem scan_idle_connections_spec (st : ThreadState) :
    (ScanIdleConnections st).state.server_conns
      = st.server_conns.filter
          (fun c => !(timedOut st.cur_time st.connection_keepalive_time c))
    ∧ (ScanIdleConnections st).shutdowns
      = (st.server_conns.filter (timedOut st.cur_time st.connection_keepalive_time)).map
          (fun c => (c, timeoutStatus st.connection_keepalive_time))
    ∧ (ScanIdleConnections st).state.client_conns = st.client_conns
    ∧ timeoutStatus st.connection_keepalive_time
      = Status.networkError ("connection timed out after "
          ++ st.connection_keepalive_time.ToStr ++ " seconds")
    ∧ (∀ c : Connection,
        timedOut st.cur_time st.connection_keepalive_time c = true ↔
          (c.idle = true ∧ st.cur_time.nanos - c.last_activity_time.nanos
            > st.connection_keepalive_time.nanos)) := by
  have walk : ∀ l : List Connection,
      (scanWalk st.cur_time st.connection_keepalive_time l).1
          = l.filter (fun c => !(timedOut st.cur_time st.connection_keepalive_time c))
      ∧ (scanWalk st.cur_time st.connection_keepalive_time l).2
          = (l.filter (timedOut st.cur_time st.connection_keepalive_time)).map
              (fun c => (c, timeoutStatus st.connection_keepalive_time)) := by
    intro l
    induction l with
    | nil => exact ⟨rfl, rfl⟩
    | cons c rest ih =>
      obtain ⟨ih1, ih2⟩ := ih
      cases hi : c.idle with
      | false => simp [scanWalk, timedOut, hi, ih1, ih2]
      | true =>
        cases ht : (st.cur_time.GetDeltaSince c.last_activity_time).MoreThan
            st.connection_keepalive_time with
        | true => simp [scanWalk, timedOut, hi, ht, ih1, ih2]
        | false => simp [scanWalk, timedOut, hi, ht, ih1, ih2]
  refine ⟨(walk st.server_conns).1, (walk st.server_conns).2, rfl, rfl, ?_⟩
  intro c
  simp [timedOut, MonoDelta.MoreThan, MonoTime.GetDeltaSince]

/-- C9: `AssignOutboundCall` derives the call deadline from the
caller-supplied timeout — zero yields the maximal (infinite) deadline and a
warning, non-zero yields fine-clock now plus the timeout — and then either
marks the call failed with the `FindOrStartConnection` error (queueing
nothing) or hands it to the found Connection's outbound queue. -/
theorem assign_outbound_call_spec (st : ThreadState) (env : Env)
    (now : MonoTime) (call : OutboundCall) :
    (call.timeout.ToNanoseconds = 0 →
      (AssignOutboundCall st env now call).deadline = MonoTime.Max
      ∧ (AssignOutboundCall st env now call).warned = true)
    ∧ (call.timeout.ToNanoseconds ≠ 0 →
      (AssignOutboundCall st env now call).deadline = now.AddDelta call.timeout
      ∧ (AssignOutboundCall st env now call).warned = false)
    ∧ ((FindOrStartConnection st env call.conn_id (callDeadline now call)).status.ok = false →
      (AssignOutboundCall st env now call).outcome
        = CallOutcome.failed
            (FindOrStartConnection st env call.conn_id (callDeadline now call)).status)
    ∧ ((FindOrStartConnection st env call.conn_id (callDeadline now call)).status.ok = true →
      (AssignOutboundCall st env now call).outcome
        = CallOutcome.queuedTo
            ((FindOrStartConnection st env call.conn_id (callDeadline now call)).conn.getD
              nullConnection)) := by
  refine ⟨?_, ?_, ?_, ?_⟩
  · intro h
    constructor
    · rw [assign_deadline]
      simp [callDeadline, h]
    · rw [assign_warned]
      simp [h]
  · intro h
    constructor
    · rw [assign_deadline]
      simp [callDeadline, h]
    · rw [assign_warned]
      simp [h]
  · intro h
    simp [AssignOutboundCall, h]
  · intro h
    simp [AssignOutboundCall, h]

theorem assign_outbound_call_spec_witness :
    (⟨cid0, ⟨0⟩, "Add"⟩ : OutboundCall).timeout.ToNanoseconds = 0
    ∧ ((AssignOutboundCall st0 envAllOk ⟨50⟩ ⟨cid0, ⟨0⟩, "Add"⟩).deadline = MonoTime.Max
      ∧ (AssignOutboundCall st0 envAllOk ⟨50⟩ ⟨cid0, ⟨0⟩, "Add"⟩).warned = true) :=
  ⟨rfl, (assign_outbound_call_spec st0 envAllOk ⟨50⟩ ⟨cid0, ⟨0⟩, "Add"⟩).1 rfl⟩

/-- C10: `DestroyConnection` on a SERVER connection absent from
`server_conns` shuts the connection down with the given status and leaves
the whole state unchanged — the pointer-identity scan finds nothing and
there is no fatal check — so the RegisterConnection failure path, which
destroys a connection that was never appended, completes without a fatal; a
CLIENT connection whose reconstructed ConnectionId is absent from
`client_conns` hits the fatal presence CHECK. -/
theorem destroy_connection_directions (st : ThreadState) (conn : Connection)
    (s : Status) :
    (conn.direction = Direction.SERVER →
      conn.ptr ∉ st.server_conns.map Connection.ptr →
      DestroyConnection st conn s = some (st, (conn, s)))
    ∧ (conn.direction = Direction.CLIENT →
      lookupConn st.client_conns
          ⟨conn.remote, conn.service_name, conn.user_credentials⟩ = none →
      DestroyConnection st conn s = none)
    ∧ (conn.direction = Direction.SERVER →
      ∀ (env : Env) (now : MonoTime),
        (RegisterConnection st env now conn).isSome = true) := by
  refine ⟨?_, ?_, ?_⟩
  · intro hdir habs
    simp [DestroyConnection, hdir, erasePtr_not_mem conn.ptr st.server_conns habs]
  · intro hdir habs
    simp [DestroyConnection, hdir, habs]
  · intro hdir env now
    cases hs : (StartConnectionNegotiation env conn
        (now.AddDelta (MonoDelta.FromMilliseconds FLAGS_server_negotiation_timeout))).ok with
    | true => simp [RegisterConnection, hs]
    | false => simp [RegisterConnection, hs, DestroyConnection, hdir]

theorem destroy_connection_directions_witness :
    ((⟨7, Direction.SERVER, ⟨2⟩, "", "", true, ⟨0⟩⟩ : Connection).direction
        = Direction.SERVER
      ∧ (⟨7, Direction.SERVER, ⟨2⟩, "", "", true, ⟨0⟩⟩ : Connection).ptr
        ∉ st0.server_conns.map Connection.ptr)
    ∧ DestroyConnection st0 ⟨7, Direction.SERVER, ⟨2⟩, "", "", true, ⟨0⟩⟩ ShutdownError
      = some (st0, (⟨7, Direction.SERVER, ⟨2⟩, "", "", true, ⟨0⟩⟩, ShutdownError)) :=
  ⟨⟨rfl, by decide⟩,
    (destroy_connection_directions st0 ⟨7, Direction.SERVER, ⟨2⟩, "", "", true, ⟨0⟩⟩
      ShutdownError).1 rfl (by decide)⟩

/-! ## C3: the RegisterConnection failure path (code bug)

In the source (reactor.cc:145-158) there is no early return after the
failed-submission `DestroyConnection` call: `server_conns_.push_back(conn)`
executes on the failure path too, appending a connection that was just shut
down. The evaluation below exhibits it: with a failing negotiation
submission, `destroyed` records the shutdown and the same connection still
ends up in `server_conns`. -/

def servConn0 : Connection := ⟨7, Direction.SERVER, ⟨2⟩, "", "", true, ⟨0⟩⟩

def regFallback : RegisterResult := ⟨st0, none, ⟨0⟩⟩

theorem register_connection_failure_appends :
    RegisterConnection st0 envSubmitFail ⟨50⟩ servConn0
      = some ⟨⟨[], [servConn0], 0, ⟨0⟩, ⟨0⟩⟩,
          some (servConn0, Status.runtimeError "thread spawn failed"),
          ⟨3000000050⟩⟩
    ∧ ((RegisterConnection st0 envSubmitFail ⟨50⟩ servConn0).getD regFallback).destroyed
      = some (servConn0, Status.runtimeError "thread spawn failed")
    ∧ servConn0
      ∈ ((RegisterConnection st0 envSubmitFail ⟨50⟩ servConn0).getD
          regFallback).state.server_conns := by
  refine ⟨by decide, by decide, by decide⟩

end KuduRpc
